import Mathlib

/-!
Shallow embedding of the resume-to-job scoring and qualification display
logic of `client/src/components/resume-score-card.tsx` (the `ResumeScoreCard`
component).  JavaScript numbers are modelled as rationals, since the scores
take fractional values such as 1.5 and 4.999; optional props are `Option`s;
the component itself becomes a pure function `render` from the `application`
prop to a `View` value describing the presentation state it produces.
-/

namespace ResumeScoreCard

/-- The hiring-company object nested in a job (`job.company` in the props).
JS truthiness of `application.job?.company` is presence of this object,
independently of the `name` field. -/
structure CompanyRef where
  name : String
deriving Repr, DecidableEq

/-- The job object nested in the props (`application.job`). -/
structure JobRef where
  title : String
  company : Option CompanyRef
deriving Repr, DecidableEq

/-- The `application` prop of `ResumeScoreCard` (interface
`ResumeScoreCardProps`, source lines 6-24).  `companyScore`,
`processingError`, `parsedCompanies` and `job` are optional fields. -/
structure Application where
  id : Int
  matchScore : ℚ
  skillsScore : ℚ
  experienceScore : ℚ
  educationScore : ℚ
  companyScore : Option ℚ
  isProcessed : Bool
  processingError : Option String
  parsedCompanies : Option (List String)
  job : Option JobRef
deriving Repr, DecidableEq

/-- Source lines 72-77: the color token chain of `getScoreColor`. -/
def getScoreColor (score : ℚ) : String :=
  if 8 ≤ score then "text-green-600 bg-green-100"
  else if 6 ≤ score then "text-yellow-600 bg-yellow-100"
  else if 4 ≤ score then "text-orange-600 bg-orange-100"
  else "text-red-600 bg-red-100"

/-- Source lines 79-84: the band label chain of `getScoreLabel`. -/
def getScoreLabel (score : ℚ) : String :=
  if 8 ≤ score then "Excellent Match"
  else if 6 ≤ score then "Good Match"
  else if 4 ≤ score then "Fair Match"
  else "Needs Improvement"

/-- Source lines 86-91: the progress-bar color chain of `getProgressColor`. -/
def getProgressColor (score : ℚ) : String :=
  if 8 ≤ score then "bg-green-500"
  else if 6 ≤ score then "bg-yellow-500"
  else if 4 ≤ score then "bg-orange-500"
  else "bg-red-500"

/-- Recommendation text of source line 180 (rule 1, skills). -/
def skillsRec : String := "• Focus on highlighting more relevant technical skills (highest impact)"

/-- Recommendation text of source line 183 (rule 2, experience). -/
def experienceRec : String := "• Emphasize your relevant work experience and achievements"

/-- Recommendation text of source line 186 (rule 3, education). -/
def educationRec : String := "• Include relevant certifications or educational background"

/-- Recommendation text of source line 189 (rule 4, no company match). -/
def companyZeroRec : String := "• Highlight any experience with similar companies or clients"

/-- Recommendation text of source line 192 (rule 5, positive company match). -/
def companyPosRec : String := "• Excellent! Your experience with similar companies is a strong advantage"

/-- Recommendation text of source line 195 (rule 6, strong overall match). -/
def greatMatchRec : String := "• Great match! Your profile aligns well with this position"

/-- Recommendation text of source line 198 (rule 7, weak overall match). -/
def tailorRec : String := "• Consider tailoring your resume to better match job requirements"

/-- Qualification message of source lines 208-210. -/
def qualifiedMsg : String := "Qualified - Resume meets minimum requirements"

/-- Qualification message of source lines 215-217. -/
def belowMsg : String := "Below threshold - Consider improving your resume"

/-- Truthiness of `application.job?.company` (source line 188): the nested
company object is present. -/
def jobCompanyPresent (a : Application) : Bool :=
  (a.job.bind JobRef.company).isSome

/-- Source lines 178-200: the recommendation list.  Each `li` is emitted
exactly when its guard holds, in the declaration order of the JSX.  The
destructured `companyScore` defaults to 0 when the field is absent
(source line 27). -/
def recommend (a : Application) : List String :=
  (if a.skillsScore < 4 then [skillsRec] else []) ++
  (if a.experienceScore < 3/2 then [experienceRec] else []) ++
  (if a.educationScore < 3/2 then [educationRec] else []) ++
  (if a.companyScore.getD 0 = 0 ∧ jobCompanyPresent a = true then [companyZeroRec] else []) ++
  (if 0 < a.companyScore.getD 0 then [companyPosRec] else []) ++
  (if 7 ≤ a.matchScore then [greatMatchRec] else []) ++
  (if a.matchScore < 5 then [tailorRec] else [])

/-- The seven recommendation texts in the declaration order of the JSX list
(source lines 179-199). -/
def allRecommendations : List String :=
  [skillsRec, experienceRec, educationRec, companyZeroRec, companyPosRec,
   greatMatchRec, tailorRec]

/-- Source lines 204-220: the qualification verdict, `matchScore >= 5`
selecting the qualified message, inclusive at the boundary. -/
def verdict (matchScore : ℚ) : String :=
  if 5 ≤ matchScore then qualifiedMsg else belowMsg

/-- Ratio of source lines 124 and 127: `matchScore / 12` (scaled by 100 for
the progress bar at the use site). -/
def overallRatio (a : Application) : ℚ := a.matchScore / 12

/-- Ratio of source line 139: `skillsScore / 6`. -/
def skillsRatio (a : Application) : ℚ := a.skillsScore / 6

/-- Ratio of source line 147: `experienceScore / 2`. -/
def experienceRatio (a : Application) : ℚ := a.experienceScore / 2

/-- Ratio of source line 155: `educationScore / 2`. -/
def educationRatio (a : Application) : ℚ := a.educationScore / 2

/-- Source line 163: the company progress value, `companyScore > 0 ? 100 : 0`. -/
def companyProgress (a : Application) : ℚ :=
  if 0 < a.companyScore.getD 0 then 100 else 0

/-- JS truthiness of the optional `processingError` string (source line 51):
present and non-empty. -/
def strTruthy : Option String → Bool
  | none => false
  | some s => s != ""

/-- The presentation states the component can return: the pending card
(source lines 29-49), the failure card displaying the error string verbatim
(source lines 51-70), or the scored card (source lines 93-223) carrying the
band label and color, the four progress percentages and the company progress
value, the parsed-companies line, the recommendation list and the
qualification verdict. -/
inductive View where
  | pending : View
  | failed (message : String) : View
  | scored (label color : String)
      (overallPct skillsPct experiencePct educationPct companyPct : ℚ)
      (companiesLine : Option String) (recommendations : List String)
      (verdictText : String) : View
deriving Repr, DecidableEq

/-- Source line 166: the first two parsed companies joined by a comma. -/
def joinComma : List String → String
  | [] => ""
  | [s] => s
  | s :: rest => s ++ ", " ++ joinComma rest

/-- The whole component body (source lines 26-223): dispatch on
`!isProcessed`, then on truthiness of `processingError`, else produce the
scored card.  The destructuring on source line 27 defaults `companyScore`
to 0 and `parsedCompanies` to the empty list. -/
def render (a : Application) : View :=
  if !a.isProcessed then View.pending
  else if strTruthy a.processingError then View.failed (a.processingError.getD "")
  else
    View.scored (getScoreLabel a.matchScore) (getScoreColor a.matchScore)
      (overallRatio a * 100) (skillsRatio a * 100) (experienceRatio a * 100)
      (educationRatio a * 100) (companyProgress a)
      (if 0 < (a.parsedCompanies.getD []).length then
        some (joinComma ((a.parsedCompanies.getD []).take 2)) else none)
      (recommend a) (verdict a.matchScore)

/-- Modelled from the spec: the two-argument `classify(score, scale)` of
section 4.1 is not present in the source under `src/` — the code bands only
the overall `matchScore` via `getScoreLabel`.  Following the spec verbatim:
it normalizes to the 0-1 ratio `score / scale` and compares against the
fractional thresholds 8/12, 6/12 and 4/12, producing the same four labels
as the code's band chain. -/
def classify (score scale : ℚ) : String :=
  if 8/12 ≤ score / scale then "Excellent Match"
  else if 6/12 ≤ score / scale then "Good Match"
  else if 4/12 ≤ score / scale then "Fair Match"
  else "Needs Improvement"

/-- An application still pending analysis, with an error string already set. -/
def pendingApp : Application :=
  { id := 1, matchScore := 6, skillsScore := 2, experienceScore := 2,
    educationScore := 2, companyScore := some 0, isProcessed := false,
    processingError := some "boom", parsedCompanies := some [], job := none }

/-- The failed-analysis scenario of spec section 8. -/
def ocrFailedApp : Application :=
  { id := 2, matchScore := 0, skillsScore := 0, experienceScore := 0,
    educationScore := 0, companyScore := none, isProcessed := true,
    processingError := some "OCR failed", parsedCompanies := none, job := none }

/-- An assessment whose `matchScore`, 13, exceeds the documented 0-12 range. -/
def overRangeApp : Application :=
  { id := 3, matchScore := 13, skillsScore := 6, experienceScore := 2,
    educationScore := 2, companyScore := some 3, isProcessed := true,
    processingError := none, parsedCompanies := some [], job := none }

/-- The in-range scenario of spec section 8: skills 2, experience 2,
education 2, company 0, overall 6. -/
def goodApp : Application :=
  { id := 4, matchScore := 6, skillsScore := 2, experienceScore := 2,
    educationScore := 2, companyScore := some 0, isProcessed := true,
    processingError := none, parsedCompanies := some [], job := none }

/-- A processed assessment whose `processingError` is the empty string:
non-null, but falsy to the JS truthiness test of source line 51. -/
def emptyErrorApp : Application :=
  { id := 5, matchScore := 6, skillsScore := 2, experienceScore := 2,
    educationScore := 2, companyScore := some 0, isProcessed := true,
    processingError := some "", parsedCompanies := some [], job := none }

/-- An assessment with the optional `companyScore` and `parsedCompanies`
fields absent and a target-company context present. -/
def defaultsApp : Application :=
  { id := 6, matchScore := 6, skillsScore := 4, experienceScore := 2,
    educationScore := 2, companyScore := none, isProcessed := true,
    processingError := none, parsedCompanies := none,
    job := some { title := "Engineer", company := some { name := "Acme" } } }

/-! ## Helper lemmas -/

/-- Membership in a guarded singleton followed by a tail. -/
theorem mem_guard_append {x y : String} {c : Prop} [Decidable c] {l : List String} :
    (x ∈ (if c then [y] else []) ++ l) ↔ ((c ∧ x = y) ∨ x ∈ l) := by
  split_ifs with h <;> simp [h]

/-- Membership in a guarded singleton. -/
theorem mem_guard {x y : String} {c : Prop} [Decidable c] :
    (x ∈ (if c then [y] else ([] : List String))) ↔ (c ∧ x = y) := by
  split_ifs with h <;> simp [h]

/-- A guarded singleton followed by a sublist is a sublist of the cons. -/
theorem guard_append_sublist {c : Prop} [Decidable c] (x : String)
    {l L : List String} (h : l.Sublist L) :
    ((if c then [x] else []) ++ l).Sublist (x :: L) := by
  split_ifs with hc
  · simpa using List.Sublist.cons₂ x h
  · exact List.Sublist.cons x h

/-- Occurrence count of a guarded singleton. -/
theorem count_guard (x y : String) (c : Prop) [Decidable c] :
    ((if c then [y] else ([] : List String)).count x) = if c ∧ y = x then 1 else 0 := by
  by_cases hc : c
  · simp [hc, List.count_singleton]
  · simp [hc]

/-- Comparing a ratio `score / scale` against a fractional threshold `t/12`
is comparing the rescaled score `score * 12 / scale` against `t`. -/
theorem key_iff (score scale t : ℚ) (h : 0 < scale) :
    (t/12 ≤ score / scale ↔ t ≤ score * 12 / scale) := by
  rw [div_le_div_iff₀ (by norm_num) h, le_div_iff₀ h]

/-! ## The claims -/

/-- C1: for every matchScore in [0,12] the qualification verdict is the
qualified message exactly when `5 ≤ matchScore`; the bound is inclusive:
5 yields the qualified message and 4.999 the below-threshold message. -/
theorem claim_C1 (q : ℚ) (h0 : 0 ≤ q) (h12 : q ≤ 12) :
    (verdict q = qualifiedMsg ↔ 5 ≤ q) ∧ verdict 5 = qualifiedMsg ∧
      verdict (4999/1000) = belowMsg := by
  refine ⟨?_, by norm_num [verdict], by norm_num [verdict]⟩
  unfold verdict
  split_ifs with h
  · exact iff_of_true rfl h
  · exact iff_of_false (by decide) h

/-- Witness for C1 at the concrete matchScore 6. -/
theorem claim_C1_witness :
    (verdict 6 = qualifiedMsg ↔ 5 ≤ (6:ℚ)) ∧ verdict 5 = qualifiedMsg ∧
      verdict (4999/1000) = belowMsg :=
  claim_C1 6 (by norm_num) (by norm_num)

/-- C2: the band classification is total with fixed thresholds 8, 6 and 4,
each band paired with its color token, and the scores 8, 6, 4 and 3.999
land in the four bands respectively. -/
theorem claim_C2 (s : ℚ) :
    (getScoreLabel s = "Excellent Match" ↔ 8 ≤ s) ∧
    (getScoreLabel s = "Good Match" ↔ 6 ≤ s ∧ s < 8) ∧
    (getScoreLabel s = "Fair Match" ↔ 4 ≤ s ∧ s < 6) ∧
    (getScoreLabel s = "Needs Improvement" ↔ s < 4) ∧
    (getScoreColor s = "text-green-600 bg-green-100" ↔ getScoreLabel s = "Excellent Match") ∧
    (getScoreColor s = "text-yellow-600 bg-yellow-100" ↔ getScoreLabel s = "Good Match") ∧
    (getScoreColor s = "text-orange-600 bg-orange-100" ↔ getScoreLabel s = "Fair Match") ∧
    (getScoreColor s = "text-red-600 bg-red-100" ↔ getScoreLabel s = "Needs Improvement") ∧
    getScoreLabel 8 = "Excellent Match" ∧ getScoreLabel 6 = "Good Match" ∧
    getScoreLabel 4 = "Fair Match" ∧ getScoreLabel (3999/1000) = "Needs Improvement" := by
  refine ⟨?_, ?_, ?_, ?_, ?_, ?_, ?_, ?_,
    by norm_num [getScoreLabel], by norm_num [getScoreLabel],
    by norm_num [getScoreLabel], by norm_num [getScoreLabel]⟩ <;>
    simp only [getScoreLabel, getScoreColor] <;>
    split_ifs with h1 h2 h3 <;>
    simp_all <;> first
      | linarith
      | (intro h; linarith)

/-- C3: `recommend` emits exactly the recommendations whose predicates hold,
each rule contributing zero or one entry, and the output is a sublist of the
declaration-order list of all seven texts, hence in declaration order;
determinism across repeated calls is definitional, `recommend` being a pure
function of the assessment. -/
theorem claim_C3 (a : Application) :
    (skillsRec ∈ recommend a ↔ a.skillsScore < 4) ∧
    (experienceRec ∈ recommend a ↔ a.experienceScore < 3/2) ∧
    (educationRec ∈ recommend a ↔ a.educationScore < 3/2) ∧
    (companyZeroRec ∈ recommend a ↔ (a.companyScore.getD 0 = 0 ∧ jobCompanyPresent a = true)) ∧
    (companyPosRec ∈ recommend a ↔ 0 < a.companyScore.getD 0) ∧
    (greatMatchRec ∈ recommend a ↔ 7 ≤ a.matchScore) ∧
    (tailorRec ∈ recommend a ↔ a.matchScore < 5) ∧
    (recommend a).Sublist allRecommendations ∧
    (recommend a).Nodup := by
  have hsub : (recommend a).Sublist allRecommendations := by
    unfold recommend allRecommendations
    simp only [List.append_assoc]
    apply guard_append_sublist
    apply guard_append_sublist
    apply guard_append_sublist
    apply guard_append_sublist
    apply guard_append_sublist
    apply guard_append_sublist
    split_ifs <;> simp
  have hnd : allRecommendations.Nodup := by
    unfold allRecommendations skillsRec experienceRec educationRec companyZeroRec
      companyPosRec greatMatchRec tailorRec
    decide
  refine ⟨?_, ?_, ?_, ?_, ?_, ?_, ?_, hsub, hnd.sublist hsub⟩ <;>
    simp only [recommend, List.append_assoc, mem_guard_append, mem_guard,
      List.not_mem_nil, or_false] <;>
    simp [skillsRec, experienceRec, educationRec, companyZeroRec, companyPosRec,
      greatMatchRec, tailorRec]

/-- C4: the spec's `classify(score, scale)`, which bands the normalized
ratio `score / scale` against the fractional thresholds, agrees with the
code's absolute band chain `getScoreLabel` applied to the 12-point
equivalent `score * 12 / scale`, for every positive scale — so the same
banding applies to every sub-score and the overall score alike. -/
theorem claim_C4 (score scale : ℚ) (h : 0 < scale) :
    classify score scale = getScoreLabel (score * 12 / scale) := by
  simp only [classify, getScoreLabel, key_iff score scale 8 h, key_iff score scale 6 h,
    key_iff score scale 4 h]

/-- Witness for C4: a skills sub-score of 4 on the 6-point scale rescales to
8 and bands identically through both formulations. -/
theorem claim_C4_witness : classify 4 6 = getScoreLabel (4 * 12 / 6) :=
  claim_C4 4 6 (by norm_num)

/-- C5 counterexample: the component does not clamp — the out-of-range
matchScore 13 yields the display ratio 13/12, which exceeds 1, refuting the
claim that every output ratio lies within [0,1] for every input assessment. -/
theorem claim_C5_counterexample :
    overallRatio overRangeApp = 13/12 ∧ 1 < overallRatio overRangeApp := by
  constructor <;> norm_num [overallRatio, overRangeApp]

/-- C5 amended: every divisor is a nonzero literal constant (12, 6, 2), so
no division by zero can occur, and for scores within their documented ranges
every display ratio lies within [0,1]; the company progress value is always
0 or 100. -/
theorem claim_C5_amended (a : Application)
    (h1 : 0 ≤ a.matchScore) (h2 : a.matchScore ≤ 12)
    (h3 : 0 ≤ a.skillsScore) (h4 : a.skillsScore ≤ 6)
    (h5 : 0 ≤ a.experienceScore) (h6 : a.experienceScore ≤ 2)
    (h7 : 0 ≤ a.educationScore) (h8 : a.educationScore ≤ 2) :
    (0 ≤ overallRatio a ∧ overallRatio a ≤ 1) ∧
    (0 ≤ skillsRatio a ∧ skillsRatio a ≤ 1) ∧
    (0 ≤ experienceRatio a ∧ experienceRatio a ≤ 1) ∧
    (0 ≤ educationRatio a ∧ educationRatio a ≤ 1) ∧
    (companyProgress a = 0 ∨ companyProgress a = 100) := by
  unfold overallRatio skillsRatio experienceRatio educationRatio
  refine ⟨⟨by positivity, ?_⟩, ⟨by positivity, ?_⟩, ⟨by positivity, ?_⟩,
    ⟨by positivity, ?_⟩, ?_⟩
  · rw [div_le_one (by norm_num)]
    linarith
  · rw [div_le_one (by norm_num)]
    linarith
  · rw [div_le_one (by norm_num)]
    linarith
  · rw [div_le_one (by norm_num)]
    linarith
  · unfold companyProgress
    split_ifs <;> simp

/-- Witness for C5 at the in-range assessment `goodApp`. -/
theorem claim_C5_amended_witness :
    (0 ≤ overallRatio goodApp ∧ overallRatio goodApp ≤ 1) ∧
    (0 ≤ skillsRatio goodApp ∧ skillsRatio goodApp ≤ 1) ∧
    (0 ≤ experienceRatio goodApp ∧ experienceRatio goodApp ≤ 1) ∧
    (0 ≤ educationRatio goodApp ∧ educationRatio goodApp ≤ 1) ∧
    (companyProgress goodApp = 0 ∨ companyProgress goodApp = 100) :=
  claim_C5_amended goodApp (by norm_num [goodApp]) (by norm_num [goodApp])
    (by norm_num [goodApp]) (by norm_num [goodApp]) (by norm_num [goodApp])
    (by norm_num [goodApp]) (by norm_num [goodApp]) (by norm_num [goodApp])

/-- C6: an unprocessed assessment renders the pending card — no band, no
recommendation and no qualification verdict appear in the output. -/
theorem claim_C6 (a : Application) (h : a.isProcessed = false) :
    render a = View.pending := by
  simp [render, h]

/-- Witness for C6 at the concrete pending assessment. -/
theorem claim_C6_witness : render pendingApp = View.pending :=
  claim_C6 pendingApp rfl

/-- C7 counterexample: `processingError` set to the empty string is non-null
yet falsy in JS, so the component does not short-circuit — it renders the
full scored card with recommendations and a qualification verdict, refuting
the claim for that input. -/
theorem claim_C7_counterexample :
    emptyErrorApp.processingError = some "" ∧
      render emptyErrorApp =
        View.scored "Good Match" "text-yellow-600 bg-yellow-100" 50 (100/3) 100 100 0
          none [skillsRec] qualifiedMsg := by
  refine ⟨rfl, ?_⟩
  norm_num [render, emptyErrorApp, strTruthy, getScoreLabel, getScoreColor,
    overallRatio, skillsRatio, experienceRatio, educationRatio, companyProgress,
    recommend, jobCompanyPresent, verdict]

/-- C7 amended: for a processed assessment whose `processingError` is
non-null and non-empty, all scoring logic is short-circuited and the error
string is surfaced verbatim in the failure card. -/
theorem claim_C7_amended (a : Application) (s : String)
    (h1 : a.isProcessed = true) (h2 : a.processingError = some s) (h3 : s ≠ "") :
    render a = View.failed s := by
  simp [render, h1, h2, strTruthy, h3]

/-- Witness for C7 at the OCR-failure scenario of spec section 8. -/
theorem claim_C7_amended_witness : render ocrFailedApp = View.failed "OCR failed" :=
  claim_C7_amended ocrFailedApp "OCR failed" rfl rfl (by decide)

/-- C8: the two company-match recommendations are mutually exclusive — no
output of `recommend` contains both, their occurrence counts summing to at
most one. -/
theorem claim_C8 (a : Application) :
    (recommend a).count companyZeroRec + (recommend a).count companyPosRec ≤ 1 := by
  simp only [recommend, List.count_append, count_guard]
  simp only [show skillsRec = companyZeroRec ↔ False by simp [skillsRec, companyZeroRec],
    show experienceRec = companyZeroRec ↔ False by simp [experienceRec, companyZeroRec],
    show educationRec = companyZeroRec ↔ False by simp [educationRec, companyZeroRec],
    show companyPosRec = companyZeroRec ↔ False by simp [companyPosRec, companyZeroRec],
    show greatMatchRec = companyZeroRec ↔ False by simp [greatMatchRec, companyZeroRec],
    show tailorRec = companyZeroRec ↔ False by simp [tailorRec, companyZeroRec],
    show skillsRec = companyPosRec ↔ False by simp [skillsRec, companyPosRec],
    show experienceRec = companyPosRec ↔ False by simp [experienceRec, companyPosRec],
    show educationRec = companyPosRec ↔ False by simp [educationRec, companyPosRec],
    show companyZeroRec = companyPosRec ↔ False by simp [companyZeroRec, companyPosRec],
    show greatMatchRec = companyPosRec ↔ False by simp [greatMatchRec, companyPosRec],
    show tailorRec = companyPosRec ↔ False by simp [tailorRec, companyPosRec],
    and_false, false_and, if_false, eq_self_iff_true, and_true, add_zero, zero_add]
  split_ifs with h4 h5 <;> try norm_num
  rcases h4 with ⟨h40, -⟩
  rw [h40] at h5
  exact absurd h5 (lt_irrefl 0)

/-- C9: the pending check precedes the error check — an unprocessed
assessment renders the pending card even when an error string is set, and
the failure card is reachable only from processed assessments. -/
theorem claim_C9 (a : Application) (msg : String) :
    (a.isProcessed = false → render a = View.pending) ∧
      (render a = View.failed msg → a.isProcessed = true) := by
  constructor
  · intro h
    simp [render, h]
  · intro h
    cases hb : a.isProcessed with
    | false => simp [render, hb] at h
    | true => rfl

/-- Witness for C9: the pending-with-error assessment renders pending, and
the failing assessment is processed. -/
theorem claim_C9_witness :
    render pendingApp = View.pending ∧ ocrFailedApp.isProcessed = true :=
  ⟨(claim_C9 pendingApp "boom").1 rfl,
   (claim_C9 ocrFailedApp "OCR failed").2 (by simp [render, ocrFailedApp, strTruthy])⟩

/-- C10: an absent `companyScore` is treated exactly as 0 and an absent
`parsedCompanies` exactly as the empty list; for such inputs the positive
company recommendation never appears, the company progress shows 0, and the
no-company-match recommendation fires whenever a target-company context is
present. -/
theorem claim_C10 (a : Application) :
    (a.companyScore = none → render a = render { a with companyScore := some 0 }) ∧
    (a.parsedCompanies = none → render a = render { a with parsedCompanies := some [] }) ∧
    (a.companyScore = none → (recommend a).count companyPosRec = 0) ∧
    (a.companyScore = none → companyProgress a = 0) ∧
    (a.companyScore = none → jobCompanyPresent a = true → companyZeroRec ∈ recommend a) := by
  obtain ⟨i, ms, ss, es, ds, cs, ip, pe, pc, j⟩ := a
  refine ⟨?_, ?_, ?_, ?_, ?_⟩ <;> intro h
  · subst h
    rfl
  · subst h
    rfl
  · subst h
    simp only [recommend, List.count_append, count_guard]
    simp only [show skillsRec = companyPosRec ↔ False by simp [skillsRec, companyPosRec],
      show experienceRec = companyPosRec ↔ False by simp [experienceRec, companyPosRec],
      show educationRec = companyPosRec ↔ False by simp [educationRec, companyPosRec],
      show companyZeroRec = companyPosRec ↔ False by simp [companyZeroRec, companyPosRec],
      show greatMatchRec = companyPosRec ↔ False by simp [greatMatchRec, companyPosRec],
      show tailorRec = companyPosRec ↔ False by simp [tailorRec, companyPosRec],
      and_false, if_false, eq_self_iff_true, and_true, add_zero, zero_add]
    norm_num
  · subst h
    simp [companyProgress]
  · subst h
    intro hj
    simp only [recommend, List.append_assoc, mem_guard_append, mem_guard]
    rw [Option.getD_none]
    simp [hj]

/-- Witness for C10 at the assessment with both optional fields absent and a
target company present. -/
theorem claim_C10_witness :
    render defaultsApp = render { defaultsApp with companyScore := some 0 } ∧
      (recommend defaultsApp).count companyPosRec = 0 ∧
      companyProgress defaultsApp = 0 ∧ companyZeroRec ∈ recommend defaultsApp :=
  ⟨(claim_C10 defaultsApp).1 rfl, (claim_C10 defaultsApp).2.2.1 rfl,
   (claim_C10 defaultsApp).2.2.2.1 rfl, (claim_C10 defaultsApp).2.2.2.2 rfl rfl⟩

end ResumeScoreCard
